import Mathlib

/-!
Verification of the SISE-Eaux ingestion pipeline
(`src/pipelines/tasks/build_database.py`).

The Python module is shallowly embedded below:
* the static year → dataset-info dictionary becomes `dis_files_info_by_year`;
* `get_yearly_dataset_infos` becomes a total function into `Except`, a raised
  `KeyError` on an unknown year being the spec's `UnknownYear`;
* the file download (`requests.get` + chunked write) becomes `fetchArchive`,
  returning the bytes written to the local archive file;
* the per-file load (DELETE + INSERT / CREATE TABLE AS) becomes `load_file`
  over an association-list database state;
* `process_sise_eaux_dataset` keeps its name, with the Python value assigned
  to `years_to_update` kept as a `PyVal` (string or list) so that the `for`
  loop's iteration semantics — a string iterates character by character — is
  modelled faithfully.

External effects (HTTP, the zip library) are parameters collected in `Env`.
-/

set_option autoImplicit false

namespace SiseEaux

/-- Runtime failures of the pipeline.  The first five are the spec's error
taxonomy names for the concrete Python exceptions (`KeyError` from the dict
lookup, a transport error from `requests`, `BadZipFile`, the duckdb IO error
raised by `read_csv` on an absent file, and the `ValueError` raised for an
empty custom selection); `UnboundLocalYearsToUpdate` models the Python
`UnboundLocalError` raised when `years_to_update` is read without having
been assigned. -/
inductive PyError where
  | UnknownYear
  | NetworkError
  | CorruptArchiveError
  | MissingFileError
  | InvalidSelection
  | UnboundLocalYearsToUpdate
deriving DecidableEq

/-- One entry of the dataset catalog: the remote resource id and the archive
file name, the `{"id": ..., "name": ...}` dict of the source. -/
structure YearEntry where
  id : String
  name : String
deriving DecidableEq

/-- The dict literal `dis_files_info_by_year` of `get_yearly_dataset_infos`,
as the lookup function it induces. -/
def dis_files_info_by_year (year : String) : Option YearEntry :=
  match year with
  | "2024" => some ⟨"84a67a3b-08a7-4001-98e6-231c74a98139", "dis-2024.zip"⟩
  | "2023" => some ⟨"c89dec4a-d985-447c-a102-75ba814c398e", "dis-2023.zip"⟩
  | "2022" => some ⟨"a97b6074-c4dd-4ef2-8922-b0cf04dbff9a", "dis-2022.zip"⟩
  | "2021" => some ⟨"d2b432cc-3761-44d3-8e66-48bc15300bb5", "dis-2021.zip"⟩
  | "2020" => some ⟨"a6cb4fea-ef8c-47a5-acb3-14e49ccad801", "dis-2020.zip"⟩
  | "2019" => some ⟨"861f2a7d-024c-4bf0-968b-9e3069d9de07", "dis-2019.zip"⟩
  | "2018" => some ⟨"0513b3c0-dc18-468d-a969-b3508f079792", "dis-2018.zip"⟩
  | "2017" => some ⟨"5785427b-3167-49fa-a581-aef835f0fb04", "dis-2017.zip"⟩
  | "2016" => some ⟨"483c84dd-7912-483b-b96f-4fa5e1d8651f", "dis-2016.zip"⟩
  | _ => none

/-- `get_yearly_dataset_infos(year)`: the dict subscript, a `KeyError`
(`UnknownYear`) when the year is not a key. -/
def get_yearly_dataset_infos (year : String) : Except PyError YearEntry :=
  match dis_files_info_by_year year with
  | some e => .ok e
  | none => .error .UnknownYear

/-- The `available_years` list of `process_sise_eaux_dataset`. -/
def available_years : List String :=
  ["2016", "2017", "2018", "2019", "2020", "2021", "2022", "2023", "2024"]

/-- A delimited source file as parsed by `read_csv(filepath, header=true,
delim=",")`: the header row names the columns, every other row is a
record. -/
structure CsvFile where
  header : List String
  rows : List (List String)
deriving DecidableEq

/-- A database row: the record taken as-is from the source file plus the
injected `annee_prelevement` integer column. -/
structure Row where
  fields : List String
  annee_prelevement : Int
deriving DecidableEq

/-- A database table: its column names and its rows. -/
structure Table where
  cols : List String
  rows : List Row
deriving DecidableEq

/-- One entry of the `FILES` dict: the file-name stem (called
`filename_` + `prefix` in the source), the extension and the target
table. -/
structure FileSpec where
  fname_stem : String
  file_extension : String
  table_name : String
deriving DecidableEq

/-- The `FILES` dict of `download_extract_insert_yearly_SISE_data`
(communes, prelevements, resultats — in Python 3.7+ dict order). -/
def FILES : List FileSpec :=
  [⟨"DIS_COM_UDI_", ".txt", "sise_communes"⟩,
   ⟨"DIS_PLV_", ".txt", "sise_prelevements"⟩,
   ⟨"DIS_RESULT_", ".txt", "sise_resultats"⟩]

/-- The duckdb database state: the existing tables, keyed by name.  A name
not bound means the table does not exist. -/
abbrev Db := List (String × Table)

/-- The extraction directory: the extracted files, keyed by file name. -/
abbrev ExtractDir := List (String × CsvFile)

/-- First binding of a key in an association list (string-keyed map
read). -/
def findEntry {β : Type} : List (String × β) → String → Option β
  | [], _ => none
  | (k, b) :: rest, a => if k = a then some b else findEntry rest a

/-- Overwrite (or add) the binding of a key in an association list; models a
`CREATE TABLE` / in-place table update in the duckdb state. -/
def dbSet : Db → String → Table → Db
  | [], n, t => [(n, t)]
  | (k, u) :: rest, n, t =>
      if k = n then (n, t) :: rest else (k, u) :: dbSet rest n t

/-- `check_table_existence`: the `information_schema.tables` count test,
true exactly when the table is bound in the database state. -/
def check_table_existence (db : Db) (table_name : String) : Bool :=
  (findEntry db table_name).isSome

/-- Decimal value of a digit string, `none` when some character is not a
digit (duckdb would reject the SQL literal then). -/
def natOfDigits : List Char → Option Nat
  | [] => none
  | cs =>
      cs.foldl
        (fun acc c =>
          match acc with
          | none => none
          | some n => if c.isDigit then some (n * 10 + (c.toNat - 48)) else none)
        (some 0)

/-- The value of the SQL literal `CAST({year} as INTEGER)`: the interpolated
year string parsed as a decimal integer (all years reaching the SQL layer in
this development are digit strings). -/
def sqlYear (year : String) : Int :=
  match natOfDigits year.data with
  | some n => Int.ofNat n
  | none => 0

/-- The rows produced by `SELECT *, CAST(year as INTEGER) AS
annee_prelevement FROM read_csv(...)`: each record with the year column
appended. -/
def tagRows (y : Int) (records : List (List String)) : List Row :=
  records.map (fun f => ⟨f, y⟩)

/-- The expected file name `{filename_...}{year}{file_extension}` inside the
extraction folder. -/
def expected_filename (fi : FileSpec) (year : String) : String :=
  fi.fname_stem ++ year ++ fi.file_extension

/-- The row predicate of `DELETE FROM t WHERE annee_prelevement = CAST(year
as INTEGER)`: the rows that survive the delete. -/
def keepOther (y : Int) (r : Row) : Bool :=
  r.annee_prelevement != y

/-- The rows belonging to a given sampling year. -/
def isYear (y : Int) (r : Row) : Bool :=
  r.annee_prelevement == y

/-- One iteration of the `for file_info in FILES.values()` loop: if the
target table exists (`check_table_existence`), `DELETE` its rows for the
year and `INSERT` the tagged file contents; otherwise `CREATE TABLE ... AS`
the tagged file contents.  The `DELETE` is executed before the file is
read, so a missing file (`read_csv` error, the spec's `MissingFileError`)
leaves the delete in place; the pair returns the database state reached
together with the error, if any. -/
def load_file (year : String) (dir : ExtractDir) (db : Db) (fi : FileSpec) :
    Db × Option PyError :=
  let filepath := expected_filename fi year
  let y := sqlYear year
  match findEntry db fi.table_name with
  | some t =>
      let deleted : Table := ⟨t.cols, t.rows.filter (keepOther y)⟩
      let db1 := dbSet db fi.table_name deleted
      match findEntry dir filepath with
      | some file =>
          (dbSet db1 fi.table_name
            ⟨deleted.cols, deleted.rows ++ tagRows y file.rows⟩, none)
      | none => (db1, some .MissingFileError)
  | none =>
      match findEntry dir filepath with
      | some file =>
          (dbSet db fi.table_name
            ⟨file.header ++ ["annee_prelevement"], tagRows y file.rows⟩, none)
      | none => (db, some .MissingFileError)

/-- An HTTP response as seen by `requests.get(DATA_URL, stream=True)`: a
status code and the body chunks yielded by `iter_content`. -/
structure HttpResponse where
  status : Nat
  chunks : List String
deriving DecidableEq

/-- The download step of `download_extract_insert_yearly_SISE_data`: the
reference code writes every chunk of the response body to the local archive
file and never inspects the HTTP status code (`raise_for_status` is not
called), so the step always succeeds and the archive file content is the
concatenated body — whatever the status was. -/
def fetchArchive (resp : HttpResponse) : Except PyError String :=
  .ok (String.join resp.chunks)

/-- The external world of one pipeline run: the HTTP response served for a
remote resource id, and the zip library — mapping the bytes of the archive
file to the extracted directory, `none` meaning `BadZipFile`. -/
structure Env where
  response : String → HttpResponse
  extractZip : String → Option ExtractDir

/-- The loop `for file_info in FILES.values()`: loads each file in turn,
stopping at the first raised error (an unhandled Python exception aborts the
loop), threading the database state. -/
def loadAll (year : String) (dir : ExtractDir) :
    Db → List FileSpec → Db × Option PyError
  | db, [] => (db, none)
  | db, fi :: rest =>
      match load_file year dir db fi with
      | (db1, none) => loadAll year dir db1 rest
      | (db1, some e) => (db1, some e)

/-- `download_extract_insert_yearly_SISE_data(year)`: catalog lookup, then
download, then extraction, then the three per-file loads.  Returns the
database state reached and the raised error, if any. -/
def download_extract_insert_yearly_SISE_data (env : Env) (db : Db)
    (year : String) : Db × Option PyError :=
  match get_yearly_dataset_infos year with
  | .error e => (db, some e)
  | .ok info =>
      match fetchArchive (env.response info.id) with
      | .error e => (db, some e)
      | .ok bytes =>
          match env.extractZip bytes with
          | none => (db, some .CorruptArchiveError)
          | some dir => loadAll year dir db FILES

/-- A Python value that can be assigned to `years_to_update`: the `"all"`
and `"custom"` branches assign a list of strings, while the `"last"` branch
assigns `available_years[-1]`, which is a plain string. -/
inductive PyVal where
  | str (s : String)
  | list (l : List String)
deriving DecidableEq

/-- Python iteration over the value of `years_to_update`: a list yields its
elements; a string yields its characters, each as a one-character
string. -/
def iterItems : PyVal → List String
  | .str s => s.data.map (fun c => String.mk [c])
  | .list l => l

/-- The selection block of `process_sise_eaux_dataset`: the value assigned
to `years_to_update` per `refresh_type`, or the exception raised before the
loop is reached.  `"last"` assigns the string `available_years[-1]`;
`"custom"` with a truthy `custom_years` assigns
`list(set(custom_years).intersection(available_years))` (modelled as the
deduplicated filter — Python set order is unspecified); `"custom"` with a
falsy `custom_years` (absent or empty) raises `ValueError`
(`InvalidSelection`); any other `refresh_type` leaves `years_to_update`
unassigned, so the `for` statement raises `UnboundLocalError`. -/
def select_years (refresh_type : String)
    (custom_years : Option (List String)) : Except PyError PyVal :=
  if refresh_type = "all" then .ok (.list available_years)
  else if refresh_type = "last" then .ok (.str (available_years.getLastD ""))
  else if refresh_type = "custom" then
    match custom_years with
    | some (y :: ys) =>
        .ok (.list (((y :: ys).filter (fun x => x ∈ available_years)).dedup))
    | _ => .error .InvalidSelection
  else .error .UnboundLocalYearsToUpdate

/-- The `for year in years_to_update` loop: runs the yearly pipeline on each
item in turn, stopping at the first raised error.  Returns the final
database state, the list of years for which the pipeline completed, and the
raised error, if any. -/
def runYears (env : Env) : Db → List String → Db × List String × Option PyError
  | db, [] => (db, [], none)
  | db, y :: ys =>
      match download_extract_insert_yearly_SISE_data env db y with
      | (db1, none) =>
          match runYears env db1 ys with
          | (db2, processed, e) => (db2, y :: processed, e)
      | (db1, some e) => (db1, [], some e)

/-- `process_sise_eaux_dataset(refresh_type, custom_years)`: year selection
followed by the per-year loop. -/
def process_sise_eaux_dataset (env : Env) (db : Db) (refresh_type : String)
    (custom_years : Option (List String)) :
    Db × List String × Option PyError :=
  match select_years refresh_type custom_years with
  | .error e => (db, [], some e)
  | .ok v => runYears env db (iterItems v)

/-- Witness data: a well-formed extracted `resultats` file. -/
def wFile : CsvFile :=
  ⟨["cdreseau", "valeur"], [["A", "1"], ["B", "2"]]⟩

/-- Witness data: the `resultats` file spec of `FILES`. -/
def wSpec : FileSpec :=
  ⟨"DIS_RESULT_", ".txt", "sise_resultats"⟩

/-- Witness data: an extraction directory holding the expected 2024 file. -/
def wDir : ExtractDir :=
  [("DIS_RESULT_2024.txt", wFile)]

/-- Witness data: a pre-existing target table holding a stale row for 2024
and a row for 2023. -/
def wTable : Table :=
  ⟨["cdreseau", "valeur", "annee_prelevement"],
   [⟨["A", "old"], 2024⟩, ⟨["C", "9"], 2023⟩]⟩

/-- Witness data: a database in which the target table pre-exists. -/
def wDb : Db :=
  [("sise_resultats", wTable)]

/-- Witness data: the target table after loading `wFile` for 2024 into
`wDb` — the 2023 row kept, the stale 2024 row replaced by the tagged file
contents. -/
def wLoadedTable : Table :=
  ⟨["cdreseau", "valeur", "annee_prelevement"],
   [⟨["C", "9"], 2023⟩, ⟨["A", "1"], 2024⟩, ⟨["B", "2"], 2024⟩]⟩

/-- Witness data: a trivial external world, used only to instantiate
universally quantified environment arguments. -/
def wEnv : Env :=
  ⟨fun _ => ⟨200, []⟩, fun _ => some []⟩

theorem findEntry_dbSet_same (db : Db) (n : String) (t : Table) :
    findEntry (dbSet db n t) n = some t := by
  induction db with
  | nil => simp [dbSet, findEntry]
  | cons p rest ih =>
      obtain ⟨k, u⟩ := p
      by_cases hk : k = n <;> simp [dbSet, findEntry, hk, ih]

theorem dbSet_dbSet (db : Db) (n : String) (t t₂ : Table) :
    dbSet (dbSet db n t) n t₂ = dbSet db n t₂ := by
  induction db with
  | nil => simp [dbSet]
  | cons p rest ih =>
      obtain ⟨k, u⟩ := p
      by_cases hk : k = n <;> simp [dbSet, hk, ih]

theorem keepOther_tagRows (y : Int) (rs : List (List String)) :
    (tagRows y rs).filter (keepOther y) = [] := by
  induction rs with
  | nil => rfl
  | cons a l ih => simp [tagRows, keepOther] at ih ⊢

theorem filter_keepOther_idem (y : Int) (l : List Row) :
    (l.filter (keepOther y)).filter (keepOther y) = l.filter (keepOther y) := by
  induction l with
  | nil => rfl
  | cons a l ih =>
      by_cases h : a.annee_prelevement = y <;>
        simp [List.filter_cons, keepOther, h, ih]

theorem isYear_filter_keepOther (y : Int) (l : List Row) :
    (l.filter (keepOther y)).filter (isYear y) = [] := by
  induction l with
  | nil => rfl
  | cons a l ih =>
      by_cases h : a.annee_prelevement = y <;>
        simp [List.filter_cons, keepOther, isYear, h, ih]

theorem isYear_tagRows (y : Int) (rs : List (List String)) :
    (tagRows y rs).filter (isYear y) = tagRows y rs := by
  induction rs with
  | nil => rfl
  | cons a l ih => simp [tagRows, isYear] at ih ⊢

/-- C3: catalog lookup fails with `UnknownYear` exactly on the years outside
`{"2016", ..., "2024"}`, and on every supported year it succeeds with a
non-empty remote id and a non-empty archive name.  (The embedding is a pure
function, so freedom from side effects is by construction.) -/
theorem catalog_lookup_spec (y : String) :
    (get_yearly_dataset_infos y = .error .UnknownYear ↔ y ∉ available_years) ∧
    ((∃ e, get_yearly_dataset_infos y = .ok e ∧ e.id ≠ "" ∧ e.name ≠ "") ↔
      y ∈ available_years) := by
  by_cases hm : y ∈ available_years
  · have hy := hm
    simp only [available_years, List.mem_cons, List.not_mem_nil, or_false] at hy
    rcases hy with rfl | rfl | rfl | rfl | rfl | rfl | rfl | rfl | rfl <;>
      refine ⟨by simp [get_yearly_dataset_infos, dis_files_info_by_year,
          available_years], ?_⟩ <;>
      simp only [iff_true_intro hm, iff_true] <;>
      exact ⟨_, rfl, by decide, by decide⟩
  · have hnone : dis_files_info_by_year y = none := by
      unfold dis_files_info_by_year
      split <;> simp_all [available_years]
    constructor
    · simp [get_yearly_dataset_infos, hnone, hm]
    · simp [get_yearly_dataset_infos, hnone, hm]

/-- C2: loading is idempotent per (table, year): with a pre-existing target
table, loading the same source directory for the same year a second time
produces exactly the database state and outcome of the first load, and after
the load the rows of the target table carrying the loaded year are exactly
the parsed file contents with the year column appended (no duplicates). -/
theorem load_idempotent_per_year (year : String) (dir : ExtractDir) (db : Db)
    (fi : FileSpec) (hex : check_table_existence db fi.table_name = true) :
    load_file year dir (load_file year dir db fi).1 fi =
      load_file year dir db fi ∧
    ∀ file, findEntry dir (expected_filename fi year) = some file →
      ∀ t₂, findEntry (load_file year dir db fi).1 fi.table_name = some t₂ →
        t₂.rows.filter (isYear (sqlYear year)) =
          tagRows (sqlYear year) file.rows := by
  obtain ⟨t, ht⟩ : ∃ t, findEntry db fi.table_name = some t := by
    cases h : findEntry db fi.table_name
    · simp [check_table_existence, h] at hex
    · exact ⟨_, rfl⟩
  cases hf : findEntry dir (expected_filename fi year) with
  | some file =>
      constructor
      · simp only [load_file, ht, hf, dbSet_dbSet, findEntry_dbSet_same,
          List.filter_append, filter_keepOther_idem, keepOther_tagRows,
          List.append_nil]
      · intro file' hfile' t₂ ht₂
        injection hfile' with hfe
        subst hfe
        simp only [load_file, ht, hf, dbSet_dbSet, findEntry_dbSet_same,
          Option.some.injEq] at ht₂
        subst ht₂
        simp only [List.filter_append, isYear_filter_keepOther,
          isYear_tagRows, List.nil_append]
  | none =>
      constructor
      · simp only [load_file, ht, hf, dbSet_dbSet, findEntry_dbSet_same,
          filter_keepOther_idem]
      · intro file hfile
        exact Option.noConfusion hfile

theorem load_idempotent_per_year_witness :
    load_file "2024" wDir (load_file "2024" wDir wDb wSpec).1 wSpec =
      load_file "2024" wDir wDb wSpec ∧
    wLoadedTable.rows.filter (isYear (sqlYear "2024")) =
      tagRows (sqlYear "2024") wFile.rows :=
  ⟨(load_idempotent_per_year "2024" wDir wDb wSpec (by decide)).1,
   (load_idempotent_per_year "2024" wDir wDb wSpec (by decide)).2 wFile
     (by decide) wLoadedTable (by decide)⟩

/-- C5: frame property of the loader: a load for year `Y` into a
pre-existing table only deletes and inserts rows with
`annee_prelevement = Y`; the rows of every other year are exactly those of
the table before the load, unchanged and in order. -/
theorem load_frame_property (year : String) (dir : ExtractDir) (db : Db)
    (fi : FileSpec) (t tr : Table)
    (hex : findEntry db fi.table_name = some t)
    (hres : findEntry (load_file year dir db fi).1 fi.table_name = some tr) :
    tr.rows.filter (keepOther (sqlYear year)) =
      t.rows.filter (keepOther (sqlYear year)) := by
  cases hf : findEntry dir (expected_filename fi year) <;>
    simp only [load_file, hex, hf, dbSet_dbSet, findEntry_dbSet_same,
      Option.some.injEq] at hres <;>
    subst hres <;>
    simp only [List.filter_append, filter_keepOther_idem, keepOther_tagRows,
      List.append_nil]

theorem load_frame_property_witness :
    wLoadedTable.rows.filter (keepOther (sqlYear "2024")) =
      wTable.rows.filter (keepOther (sqlYear "2024")) :=
  load_frame_property "2024" wDir wDb wSpec wTable wLoadedTable (by decide)
    (by decide)

/-- C6: loading into a non-existent table creates it, with column set equal
to the source file's header columns plus the extra `annee_prelevement`
column, every inserted row carrying the processed year. -/
theorem load_creates_table (year : String) (dir : ExtractDir) (db : Db)
    (fi : FileSpec) (file : CsvFile)
    (hnone : findEntry db fi.table_name = none)
    (hfile : findEntry dir (expected_filename fi year) = some file) :
    (load_file year dir db fi).2 = none ∧
    findEntry (load_file year dir db fi).1 fi.table_name =
      some ⟨file.header ++ ["annee_prelevement"],
            tagRows (sqlYear year) file.rows⟩ ∧
    ∀ r ∈ tagRows (sqlYear year) file.rows,
      r.annee_prelevement = sqlYear year := by
  refine ⟨?_, ?_, ?_⟩ <;>
    simp [load_file, hnone, hfile, findEntry_dbSet_same, tagRows]

theorem load_creates_table_witness :
    (load_file "2024" wDir [] wSpec).2 = none ∧
    findEntry (load_file "2024" wDir [] wSpec).1 wSpec.table_name =
      some ⟨wFile.header ++ ["annee_prelevement"],
            tagRows (sqlYear "2024") wFile.rows⟩ :=
  ⟨(load_creates_table "2024" wDir [] wSpec wFile (by decide) (by decide)).1,
   (load_creates_table "2024" wDir [] wSpec wFile (by decide)
     (by decide)).2.1⟩

/-- C7: when the expected file is absent from the extracted directory, the
load fails with `MissingFileError` and inserts no rows: the target table
afterwards is exactly the table before with its year-`Y` rows deleted (the
`DELETE` runs before the file is read), and it is not created when it did
not exist. -/
theorem load_missing_file (year : String) (dir : ExtractDir) (db : Db)
    (fi : FileSpec)
    (hmiss : findEntry dir (expected_filename fi year) = none) :
    (load_file year dir db fi).2 = some .MissingFileError ∧
    findEntry (load_file year dir db fi).1 fi.table_name =
      (findEntry db fi.table_name).map
        (fun t => ⟨t.cols, t.rows.filter (keepOther (sqlYear year))⟩) := by
  cases ht : findEntry db fi.table_name <;>
    simp [load_file, ht, hmiss, findEntry_dbSet_same]

theorem load_missing_file_witness :
    (load_file "2024" [] wDb wSpec).2 = some .MissingFileError ∧
    findEntry (load_file "2024" [] wDb wSpec).1 wSpec.table_name =
      (findEntry wDb wSpec.table_name).map
        (fun t => ⟨t.cols, t.rows.filter (keepOther (sqlYear "2024"))⟩) :=
  load_missing_file "2024" [] wDb wSpec (by decide)

/-- C1 (documenting the code defect): with `refresh_type="last"` the code
assigns `years_to_update = available_years[-1]`, which is the plain string
`"2024"`, and the `for` loop then iterates its characters.  The per-year
pipeline is therefore invoked with `"2"` — not once with `"2024"` — and
that first invocation already fails at the catalog lookup, so the run ends
with `UnknownYear`, no year processed, the database untouched. -/
theorem last_mode_iterates_characters (env : Env) (db : Db) :
    select_years "last" none = .ok (.str "2024") ∧
    iterItems (.str "2024") = ["2", "0", "2", "4"] ∧
    process_sise_eaux_dataset env db "last" none =
      (db, [], some .UnknownYear) := by
  exact ⟨rfl, rfl, rfl⟩

/-- C4 (documenting the code defect): the download step never inspects the
HTTP status: at a concrete 404 response it succeeds and the error-page body
is exactly what gets written to the local archive file, and no response at
all can make it fail with `NetworkError`. -/
theorem fetch_writes_error_body :
    fetchArchive ⟨404, ["<html>", "Not Found", "</html>"]⟩ =
      .ok "<html>Not Found</html>" ∧
    ∀ resp : HttpResponse, ∀ e : PyError, fetchArchive resp ≠ .error e := by
  refine ⟨rfl, ?_⟩
  intro resp e h
  simp [fetchArchive] at h

/-- C8: `refresh_type="custom"` with a non-empty list selects exactly the
requested years that are supported — unsupported ones are silently dropped,
no error is raised — and the run is the per-year loop over exactly that
selection. -/
theorem custom_mode_intersection (cys : List String) (h : cys ≠ []) :
    select_years "custom" (some cys) =
      .ok (.list ((cys.filter (fun x => x ∈ available_years)).dedup)) ∧
    (∀ y, y ∈ (cys.filter (fun x => x ∈ available_years)).dedup ↔
        y ∈ cys ∧ y ∈ available_years) ∧
    ∀ env db, process_sise_eaux_dataset env db "custom" (some cys) =
      runYears env db ((cys.filter (fun x => x ∈ available_years)).dedup) := by
  obtain ⟨y0, ys, rfl⟩ := List.exists_cons_of_ne_nil h
  refine ⟨rfl, ?_, ?_⟩
  · intro y
    simp [List.mem_dedup, List.mem_filter, and_comm]
  · intro env db
    rfl

theorem custom_mode_intersection_witness :
    select_years "custom" (some ["1999", "2024", "2024"]) =
      .ok (.list (((["1999", "2024", "2024"]).filter
          (fun x => x ∈ available_years)).dedup)) ∧
    ("2024" ∈ ((["1999", "2024", "2024"]).filter
          (fun x => x ∈ available_years)).dedup ↔
        "2024" ∈ ["1999", "2024", "2024"] ∧ "2024" ∈ available_years) ∧
    process_sise_eaux_dataset wEnv [] "custom"
        (some ["1999", "2024", "2024"]) =
      runYears wEnv [] (((["1999", "2024", "2024"]).filter
          (fun x => x ∈ available_years)).dedup) :=
  ⟨(custom_mode_intersection ["1999", "2024", "2024"] (by decide)).1,
   (custom_mode_intersection ["1999", "2024", "2024"] (by decide)).2.1 "2024",
   (custom_mode_intersection ["1999", "2024", "2024"] (by decide)).2.2 wEnv []⟩

/-- C9: `refresh_type="custom"` with an absent or empty `custom_years`
raises `InvalidSelection` before the loop: no year is processed and the
database is untouched. -/
theorem custom_mode_empty_invalid (env : Env) (db : Db)
    (cys : Option (List String)) (h : cys = none ∨ cys = some []) :
    process_sise_eaux_dataset env db "custom" cys =
      (db, [], some .InvalidSelection) := by
  rcases h with rfl | rfl <;> rfl

theorem custom_mode_empty_invalid_witness :
    process_sise_eaux_dataset wEnv [] "custom" none =
      ([], [], some .InvalidSelection) :=
  custom_mode_empty_invalid wEnv [] none (Or.inl rfl)

/-- C10: any `refresh_type` outside `{"all", "last", "custom"}` leaves
`years_to_update` unassigned, so the call fails with the Python
`UnboundLocalError` — an error outside the spec's taxonomy — with no year
processed and the database untouched. -/
theorem invalid_refresh_type_unbound (env : Env) (db : Db)
    (refresh_type : String) (cys : Option (List String))
    (h1 : refresh_type ≠ "all") (h2 : refresh_type ≠ "last")
    (h3 : refresh_type ≠ "custom") :
    process_sise_eaux_dataset env db refresh_type cys =
      (db, [], some .UnboundLocalYearsToUpdate) := by
  simp [process_sise_eaux_dataset, select_years, h1, h2, h3]

theorem invalid_refresh_type_unbound_witness :
    process_sise_eaux_dataset wEnv [] "weekly" none =
      ([], [], some .UnboundLocalYearsToUpdate) :=
  invalid_refresh_type_unbound wEnv [] "weekly" none (by decide) (by decide)
    (by decide)

end SiseEaux
